import Mathlib

/-!
Shallow embedding of the dual-resource write coordinator of the media-catalog
API (routers `albums.py` and `songs.py`): the state of the blob store and the
relational tables, and the create/update/delete/toggle-like handlers as pure
state-transforming functions.  External calls (blob upload, transaction
commit) are driven by an explicit per-invocation oracle so that every failure
interleaving of one invocation can be examined.
-/

/-- One stored binary object: its storage key and its public locator URL.
Modelled from the spec: `upload(ownerID, folder, bytes, contentType) → (key, url)`
(`app/bucket_functions.py` is not part of the sources). -/
structure Blob where
  key : String
  url : String
deriving DecidableEq, Repr

/-- Album row (`Albums` model; the model module is not in the sources, fields
are the ones the routers read and write). -/
structure AlbumRow where
  id : Nat
  name : String
  singer_id : Nat
  cover : String
  cover_url : String
deriving DecidableEq, Repr

/-- Song row (`Songs` model): the fields the routers read and write. -/
structure SongRow where
  id : Nat
  name : String
  singer_id : Nat
  album_id : Nat
  genre : String
  like_count : Int
  cover : String
  cover_url : String
  song : String
  song_url : String
deriving DecidableEq, Repr

/-- One `Song_Likes` join row. -/
structure LikeRow where
  user_id : Nat
  song_id : Nat
deriving DecidableEq, Repr

/-- The combined state of the blob store and the relational tables. -/
structure St where
  blobs : List Blob
  albums : List AlbumRow
  songs : List SongRow
  likes : List LikeRow
deriving DecidableEq, Repr

/-- Errors an invocation can surface to the caller: a typed
`HTTPException(status, detail)`, an uncaught `NameError` on an unbound local,
an uncaught `AttributeError`, or an uncaught `MultipleResultsFound` from
`one_or_none()`. -/
inductive PyErr
  | http (status : Nat) (detail : String)
  | nameError (var : String)
  | attributeError (msg : String)
  | multipleResults
deriving DecidableEq, Repr

/-- Effect on the store of a successful `upload_file` call: the new blob is
present afterwards.  Modelled from the spec: `upload_file` is not in the
sources; per the blob-store contract an upload durably stores the object
under its key. -/
def upload_file_store (st : St) (b : Blob) : St :=
  { st with blobs := b :: st.blobs }

/-- Effect of `delete_file` on the store.  Modelled from the spec:
`delete(key_or_url)` removes the blob whose key or URL matches the argument
and succeeds idempotently when nothing matches. -/
def delete_file (st : St) (s : String) : St :=
  { st with blobs := st.blobs.filter (fun b => !(b.key == s || b.url == s)) }

/-- Effect of `delete_file` when the argument may be Python `None` (as happens
in `update_song`, which passes the fresh DTO's `cover`).  Modelled from the
spec: delete of a missing key must not be a hard error, so the `none` call is
a no-op on the store. -/
def delete_file_opt (st : St) (s : Option String) : St :=
  match s with
  | none => st
  | some k => delete_file st k

/-- Per-invocation oracle for one upload and the commit: the upload either
returns a blob or raises (with the exception text), and the commit either
succeeds or raises (with the exception text). -/
structure Env1 where
  upload : Except String Blob
  commitErr : Option String
deriving Repr

/-- Oracle for the two uploads of `create_song` plus the commit. -/
structure Env2 where
  uploadSong : Except String Blob
  uploadCover : Except String Blob
  commitErr : Option String
deriving Repr

/-- An incoming multipart file: its declared content type and byte size. -/
structure UploadIn where
  content_type : String
  size : Nat
deriving DecidableEq, Repr

def album_allowed_types : List String := ["image/jpeg", "image/png"]

def song_allowed_types : List String := ["audio/mpeg", "audio/mp3", "audio/wav"]

def max_file_size : Nat := 1 * 1024 * 1024

/-- Handler `POST /albums/` (`create_album` in `albums.py`): validate cover type and
size, check `(name, singer)` uniqueness via `one_or_none`, then in the `try`
block upload the cover, insert the row and commit; the `except` handler rolls
back and runs `if blob_name: delete_file(...)` — when the upload itself
raised, `blob_name` was never bound and the handler raises `NameError`. -/
def create_album (st : St) (env : Env1) (name : String) (cover : UploadIn)
    (userId : Nat) (newId : Nat) : Except PyErr AlbumRow × St :=
  if ¬ album_allowed_types.contains cover.content_type then
    (Except.error (PyErr.http 400 ("Invalid file type: " ++ cover.content_type)), st)
  else if max_file_size < cover.size then
    (Except.error (PyErr.http 400 "File size exceeds the limit of 1 MB."), st)
  else
    let existing := st.albums.filter (fun a => a.name == name && a.singer_id == userId)
    if 2 ≤ existing.length then
      (Except.error PyErr.multipleResults, st)
    else if existing.length == 1 then
      (Except.error (PyErr.http 400
        "Album with the same name and singer has already been created"), st)
    else
      match env.upload with
      | Except.error _ =>
          (Except.error (PyErr.nameError "blob_name"), st)
      | Except.ok b =>
          let st1 := upload_file_store st b
          match env.commitErr with
          | none =>
              let row : AlbumRow :=
                { id := newId, name := name, singer_id := userId,
                  cover := b.key, cover_url := b.url }
              (Except.ok row, { st1 with albums := row :: st1.albums })
          | some msg =>
              let st2 := if b.key ≠ "" then delete_file st1 b.key else st1
              (Except.error (PyErr.http 500 ("An error occurred: " ++ msg)), st2)

/-- Handler `POST /songs/` (`create_song` in `songs.py`): the validation chain checks
content types only (there is no size check in this handler), then the
`(name, singer)` uniqueness check, then the `try` block uploads the song
file, uploads the cover, inserts the row and commits.  The `except` handler
rolls back then runs `if song_blob_name: ...` and `if cover_blob_name: ...`;
a variable left unbound by a failed upload makes the handler itself raise
`NameError` (after any deletes that already ran). -/
def create_song (st : St) (env : Env2) (name : String) (genre : String)
    (album_id : Nat) (song : UploadIn) (cover : UploadIn)
    (userId : Nat) (newId : Nat) : Except PyErr SongRow × St :=
  if ¬ song_allowed_types.contains song.content_type ∧
      ¬ album_allowed_types.contains cover.content_type then
    (Except.error (PyErr.http 400
      ("Invalid file types: song - " ++ song.content_type ++
        ", cover - " ++ cover.content_type)), st)
  else if ¬ song_allowed_types.contains song.content_type then
    (Except.error (PyErr.http 400
      ("Invalid song file type: " ++ song.content_type)), st)
  else if ¬ album_allowed_types.contains cover.content_type then
    (Except.error (PyErr.http 400
      ("Invalid cover file type: " ++ cover.content_type)), st)
  else
    let existing := st.songs.filter (fun s => s.name == name && s.singer_id == userId)
    if 2 ≤ existing.length then
      (Except.error PyErr.multipleResults, st)
    else if existing.length == 1 then
      (Except.error (PyErr.http 400
        "Song with the same name and singer has already been created"), st)
    else
      match env.uploadSong with
      | Except.error _ =>
          (Except.error (PyErr.nameError "song_blob_name"), st)
      | Except.ok bs =>
          let st1 := upload_file_store st bs
          match env.uploadCover with
          | Except.error _ =>
              let st2 := if bs.key ≠ "" then delete_file st1 bs.key else st1
              (Except.error (PyErr.nameError "cover_blob_name"), st2)
          | Except.ok bc =>
              let st2 := upload_file_store st1 bc
              match env.commitErr with
              | none =>
                  let row : SongRow :=
                    { id := newId, name := name, singer_id := userId,
                      album_id := album_id, genre := genre, like_count := 0,
                      cover := bc.key, cover_url := bc.url,
                      song := bs.key, song_url := bs.url }
                  (Except.ok row, { st2 with songs := row :: st2.songs })
              | some msg =>
                  let st3 := if bs.key ≠ "" then delete_file st2 bs.key else st2
                  let st4 := if bc.key ≠ "" then delete_file st3 bc.key else st3
                  (Except.error (PyErr.http 500 ("An error occurred: " ++ msg)), st4)

/-- The SQL comparison `name == <param>` when the parameter is nullable: a `None`
parameter compares as `IS NULL` and matches no stored (non-null) name. -/
def nameMatch (n : Option String) (s : String) : Bool :=
  match n with
  | none => false
  | some v => s == v

/-- Handler `PUT /albums/:id` (`update_album` in `albums.py`): fetch the row (404),
ownership check (403), then the cover validation — which dereferences
`cover.content_type` unconditionally, so a request without a cover raises
`AttributeError` — then the `(name, singer)` collision check (which also
matches the album being updated), then the `try` block: upload the new
cover, delete the old cover blob, apply the set fields, commit.  The
`except` handler rolls back and runs `if blob_name: delete_file(...)`. -/
def update_album (st : St) (env : Env1) (albumId : Nat) (userId : Nat)
    (name : Option String) (cover : Option UploadIn) : Except PyErr AlbumRow × St :=
  match st.albums.find? (fun a => a.id == albumId) with
  | none => (Except.error (PyErr.http 404 "Album not found"), st)
  | some album_db =>
    if album_db.singer_id ≠ userId then
      (Except.error (PyErr.http 403 "Can not change other user data"), st)
    else
      match cover with
      | none =>
          (Except.error (PyErr.attributeError
            "NoneType object has no attribute content_type"), st)
      | some c =>
        if ¬ album_allowed_types.contains c.content_type then
          (Except.error (PyErr.http 400 ("Invalid file type: " ++ c.content_type)), st)
        else if max_file_size < c.size then
          (Except.error (PyErr.http 400 "File size exceeds the limit of 1 MB."), st)
        else
          let existing := st.albums.filter
            (fun a => nameMatch name a.name && a.singer_id == userId)
          if 2 ≤ existing.length then
            (Except.error PyErr.multipleResults, st)
          else if existing.length == 1 then
            (Except.error (PyErr.http 400
              "Album with the same name and singer has already been created"), st)
          else
            match env.upload with
            | Except.error _ =>
                (Except.error (PyErr.nameError "blob_name"), st)
            | Except.ok b =>
                let st1 := upload_file_store st b
                let st2 := delete_file st1 album_db.cover
                match env.commitErr with
                | none =>
                    let row : AlbumRow :=
                      { album_db with
                        name := name.getD album_db.name,
                        cover := b.key, cover_url := b.url }
                    (Except.ok row,
                      { st2 with albums :=
                          st2.albums.map (fun a => if a.id == albumId then row else a) })
                | some msg =>
                    let st3 := if b.key ≠ "" then delete_file st2 b.key else st2
                    (Except.error (PyErr.http 500 ("An error occurred: " ++ msg)), st3)

/-- Handler `PUT /songs/:id` (`update_song` in `songs.py`): fetch (404), ownership
(403), then the cover-type validation — again dereferencing
`cover.content_type` unguarded, so a request without a cover raises
`AttributeError` — then the collision check, then the `try` block.  The
block builds a fresh `SongUpdate` DTO named `song` (all fields `None`),
uploads the new cover, calls `delete_file(bucket, song.cover)` — the DTO's
`cover`, i.e. `None`, not the row's old cover — assigns the new blob name to
the DTO (which is never applied to the row), copies `name`/`genre` onto the
row, and commits.  The `except` handler only rolls back: the uploaded cover
is never compensated and the row's cover columns are never changed. -/
def update_song (st : St) (env : Env1) (songId : Nat) (userId : Nat)
    (name : Option String) (genre : Option String) (cover : Option UploadIn) :
    Except PyErr SongRow × St :=
  match st.songs.find? (fun s => s.id == songId) with
  | none => (Except.error (PyErr.http 404 "Song not found"), st)
  | some song_db =>
    if song_db.singer_id ≠ userId then
      (Except.error (PyErr.http 403 "Cannot update another user's song"), st)
    else
      match cover with
      | none =>
          (Except.error (PyErr.attributeError
            "NoneType object has no attribute content_type"), st)
      | some c =>
        if ¬ album_allowed_types.contains c.content_type then
          (Except.error (PyErr.http 400 ("Invalid file type: " ++ c.content_type)), st)
        else
          let existing := st.songs.filter
            (fun s => nameMatch name s.name && s.singer_id == userId)
          if 2 ≤ existing.length then
            (Except.error PyErr.multipleResults, st)
          else if existing.length == 1 then
            (Except.error (PyErr.http 400
              "Song with the same name and singer has already been created"), st)
          else
            match env.upload with
            | Except.error msg =>
                (Except.error (PyErr.http 500 ("An error occurred: " ++ msg)), st)
            | Except.ok b =>
                let st1 := upload_file_store st b
                let st2 := delete_file_opt st1 none
                match env.commitErr with
                | none =>
                    let row : SongRow :=
                      { song_db with
                        name := name.getD song_db.name,
                        genre := genre.getD song_db.genre }
                    (Except.ok row,
                      { st2 with songs :=
                          st2.songs.map (fun s => if s.id == songId then row else s) })
                | some msg =>
                    (Except.error (PyErr.http 500 ("An error occurred: " ++ msg)), st2)

/-- Handler `DELETE /albums/:id` (`delete_album` in `albums.py`): fetch (404),
ownership (403), then delete the cover blob, delete the row and commit; on
any failure roll back and raise the generic 500 `"An error occurred: ..."`.
The commit outcome is the oracle argument. -/
def delete_album (st : St) (commitErr : Option String) (albumId : Nat)
    (userId : Nat) : Except PyErr AlbumRow × St :=
  match st.albums.find? (fun a => a.id == albumId) with
  | none => (Except.error (PyErr.http 404 "Album not found"), st)
  | some album =>
    if album.singer_id ≠ userId then
      (Except.error (PyErr.http 403 "Can not delete other user's album"), st)
    else
      let st1 := delete_file st album.cover
      match commitErr with
      | none =>
          (Except.ok album,
            { st1 with albums := st1.albums.filter (fun a => !(a.id == albumId)) })
      | some msg =>
          (Except.error (PyErr.http 500 ("An error occurred: " ++ msg)), st1)

/-- Handler `DELETE /songs/:id` (`delete_song` in `songs.py`): fetch (404),
ownership (403), then delete the audio blob (addressed by its URL,
`song_db.song_url`), delete the cover blob if `cover_url` is truthy, delete
the row and commit; on failure roll back and raise the generic 500. -/
def delete_song (st : St) (commitErr : Option String) (songId : Nat)
    (userId : Nat) : Except PyErr SongRow × St :=
  match st.songs.find? (fun s => s.id == songId) with
  | none => (Except.error (PyErr.http 404 "Song not found"), st)
  | some song_db =>
    if song_db.singer_id ≠ userId then
      (Except.error (PyErr.http 403 "Cannot delete another user's song"), st)
    else
      let st1 := delete_file st song_db.song_url
      let st2 := if song_db.cover_url ≠ "" then delete_file st1 song_db.cover_url else st1
      match commitErr with
      | none =>
          (Except.ok song_db,
            { st2 with songs := st2.songs.filter (fun s => !(s.id == songId)) })
      | some msg =>
          (Except.error (PyErr.http 500 ("An error occurred: " ++ msg)), st2)

/-- Does a like row belong to the `(user, song)` pair being toggled? -/
def isLikeOf (userId : Nat) (songId : Nat) (e : LikeRow) : Bool :=
  e.user_id == userId && e.song_id == songId

/-- Handler `POST /songs/:id/like` (`like_or_unlike_song` in `songs.py`): fetch the
song (404), look the edge up with `one_or_none` (raises on multiple rows);
if the edge exists delete it and decrement `like_count` by 1, otherwise
insert it and increment by 1, committing in both branches. -/
def like_or_unlike_song (st : St) (userId : Nat) (songId : Nat) :
    Except PyErr String × St :=
  match st.songs.find? (fun s => s.id == songId) with
  | none => (Except.error (PyErr.http 404 "Song not found"), st)
  | some _ =>
    let ms := st.likes.filter (isLikeOf userId songId)
    if 2 ≤ ms.length then
      (Except.error PyErr.multipleResults, st)
    else if ms.length == 1 then
      (Except.ok ("Successfully unliked song with id " ++ toString songId),
        { st with
          likes := st.likes.filter (fun e => !(isLikeOf userId songId e)),
          songs := st.songs.map
            (fun s => if s.id == songId then { s with like_count := s.like_count - 1 } else s) })
    else
      (Except.ok ("Successfully liked song with id " ++ toString songId),
        { st with
          likes := ⟨userId, songId⟩ :: st.likes,
          songs := st.songs.map
            (fun s => if s.id == songId then { s with like_count := s.like_count + 1 } else s) })

/-- Folding a sequence of toggle invocations over the state; a failed
invocation leaves the state unchanged (`like_or_unlike_song` already returns
the input state on every error). -/
def applyToggles (st : St) (ops : List (Nat × Nat)) : St :=
  ops.foldl (fun s op => (like_or_unlike_song s op.1 op.2).2) st

deriving instance DecidableEq for Except

example :
    (create_album ⟨[], [], [], []⟩ ⟨Except.ok ⟨"k", "u"⟩, none⟩ "abc"
      ⟨"image/png", 100⟩ 1 1).1 =
      Except.ok ⟨1, "abc", 1, "k", "u"⟩ := by decide

example :
    (create_album ⟨[], [], [], []⟩ ⟨Except.error "boom", none⟩ "abc"
      ⟨"image/png", 100⟩ 1 1).1 =
      Except.error (PyErr.nameError "blob_name") := by decide

example :
    (create_album ⟨[⟨"old", "oldu"⟩], [], [], []⟩ ⟨Except.ok ⟨"k", "u"⟩, some "db down"⟩
      "abc" ⟨"image/png", 100⟩ 1 1) =
      (Except.error (PyErr.http 500 "An error occurred: db down"),
        ⟨[⟨"old", "oldu"⟩], [], [], []⟩) := by decide

/-- A sample album row used by the concrete theorems. -/
def exAlbum : AlbumRow := ⟨1, "Rock", 1, "covkey", "covurl"⟩

/-- A sample song row used by the concrete theorems. -/
def exSong : SongRow := ⟨7, "Tune", 3, 1, "pop", 0, "songcov", "songcovurl", "songkey", "songurl"⟩

/-- A sample consistent state: both rows persisted and all their blobs in
the store. -/
def exSt : St :=
  ⟨[⟨"covkey", "covurl"⟩, ⟨"songcov", "songcovurl"⟩, ⟨"songkey", "songurl"⟩],
    [exAlbum], [exSong], []⟩

example :
    (update_song exSt ⟨Except.ok ⟨"newc", "newcu"⟩, none⟩ 7 3 none none
      (some ⟨"image/png", 100⟩)).2.blobs =
      [⟨"newc", "newcu"⟩, ⟨"covkey", "covurl"⟩, ⟨"songcov", "songcovurl"⟩,
        ⟨"songkey", "songurl"⟩] := by decide

/-- C5 (failing input for the code bug): an `update_album` request that omits
the cover (`cover = None`) and only supplies a new name does not perform a
partial update — the handler dereferences `cover.content_type` before the
`if cover is not None` guard and raises `AttributeError`, leaving the state
untouched and the supplied name unapplied. -/
theorem C5_update_without_cover_raises :
    update_album exSt ⟨Except.ok ⟨"n", "nu"⟩, none⟩ 1 1 (some "NewName") none =
      (Except.error (PyErr.attributeError
        "NoneType object has no attribute content_type"), exSt) := by
  decide

/-- C2 (failing input for the code bug): a fully successful `update_song`
that replaces the cover deletes `song.cover` of the fresh DTO (Python
`None`) instead of the row's old cover, and never writes the new `BlobRef`
into the row: afterwards the old cover blob still exists, the new blob is
orphaned in the store, and the committed row still references the old
cover. -/
theorem C2_update_song_replacement_is_broken :
    update_song exSt ⟨Except.ok ⟨"newc", "newcu"⟩, none⟩ 7 3 none none
      (some ⟨"image/png", 100⟩) =
      (Except.ok exSong,
        ⟨[⟨"newc", "newcu"⟩, ⟨"covkey", "covurl"⟩, ⟨"songcov", "songcovurl"⟩,
          ⟨"songkey", "songurl"⟩], [exAlbum], [exSong], []⟩) := by
  decide

/-- C4 (counterexample): `create_song` enforces no size ceiling — a 2 MiB
PNG cover (over the 1 MiB image policy) together with an allowed audio file
passes validation, both blobs are uploaded and the row is committed, instead
of the claimed rejection with a validation error before any I/O. -/
theorem C4_create_song_accepts_oversized_cover :
    create_song ⟨[], [], [], []⟩
      ⟨Except.ok ⟨"sk", "su"⟩, Except.ok ⟨"ck", "cu"⟩, none⟩
      "Tune" "pop" 1 ⟨"audio/mpeg", 5000000⟩ ⟨"image/png", 2097152⟩ 3 7 =
      (Except.ok ⟨7, "Tune", 3, 1, "pop", 0, "ck", "cu", "sk", "su"⟩,
        ⟨[⟨"ck", "cu"⟩, ⟨"sk", "su"⟩], [],
          [⟨7, "Tune", 3, 1, "pop", 0, "ck", "cu", "sk", "su"⟩], []⟩) := by
  decide

/-- C6 (counterexample): the collision query of `update_album` does not
exclude the album being updated — re-supplying the album's own current name
(owner 1 updating album 1, whose name already is `"Rock"`) is rejected with
the Conflict error, although no different entity of that owner has the
name. -/
theorem C6_own_name_is_rejected_as_conflict :
    (update_album exSt ⟨Except.ok ⟨"n", "nu"⟩, none⟩ 1 1 (some "Rock")
      (some ⟨"image/png", 100⟩)).1 =
      Except.error (PyErr.http 400
        "Album with the same name and singer has already been created") := by
  decide

/-- C7 (counterexample): when the row delete/commit of `delete_album` fails
after the cover blob was already destroyed (a failure after some but not all
destructive steps), the caller receives the same generic
`500 "An error occurred: ..."` as any upstream failure — identical to the
error `create_album` reports for a failed commit — not a distinct
partial-delete error kind; the final state shows the partial delete (blob
gone, row still present). -/
theorem C7_partial_delete_reported_as_generic_500 :
    delete_album exSt (some "boom") 1 1 =
      (Except.error (PyErr.http 500 "An error occurred: boom"),
        ⟨[⟨"songcov", "songcovurl"⟩, ⟨"songkey", "songurl"⟩], [exAlbum], [exSong], []⟩)
    ∧ (delete_album exSt (some "boom") 1 1).1 =
      (create_album exSt ⟨Except.ok ⟨"x", "xu"⟩, some "boom"⟩ "Fresh"
        ⟨"image/png", 10⟩ 1 2).1 := by
  constructor
  · decide
  · decide

/-- C9: for all four update/delete handlers, a missing entity yields the 404
NotFound error and an ownership mismatch yields the distinct 403 Forbidden
error, and in both cases the returned state is exactly the input state — the
checks run and return before any upload, blob delete, or row mutation. -/
theorem C9_precondition_checks_first :
    (∀ st env aid uid nm cov, st.albums.find? (fun a => a.id == aid) = none →
        update_album st env aid uid nm cov =
          (Except.error (PyErr.http 404 "Album not found"), st))
  ∧ (∀ st env aid uid nm cov adb,
        st.albums.find? (fun a => a.id == aid) = some adb → adb.singer_id ≠ uid →
        update_album st env aid uid nm cov =
          (Except.error (PyErr.http 403 "Can not change other user data"), st))
  ∧ (∀ st env sid uid nm gr cov, st.songs.find? (fun s => s.id == sid) = none →
        update_song st env sid uid nm gr cov =
          (Except.error (PyErr.http 404 "Song not found"), st))
  ∧ (∀ st env sid uid nm gr cov sdb,
        st.songs.find? (fun s => s.id == sid) = some sdb → sdb.singer_id ≠ uid →
        update_song st env sid uid nm gr cov =
          (Except.error (PyErr.http 403 "Cannot update another user's song"), st))
  ∧ (∀ st ce aid uid, st.albums.find? (fun a => a.id == aid) = none →
        delete_album st ce aid uid =
          (Except.error (PyErr.http 404 "Album not found"), st))
  ∧ (∀ st ce aid uid adb,
        st.albums.find? (fun a => a.id == aid) = some adb → adb.singer_id ≠ uid →
        delete_album st ce aid uid =
          (Except.error (PyErr.http 403 "Can not delete other user's album"), st))
  ∧ (∀ st ce sid uid, st.songs.find? (fun s => s.id == sid) = none →
        delete_song st ce sid uid =
          (Except.error (PyErr.http 404 "Song not found"), st))
  ∧ (∀ st ce sid uid sdb,
        st.songs.find? (fun s => s.id == sid) = some sdb → sdb.singer_id ≠ uid →
        delete_song st ce sid uid =
          (Except.error (PyErr.http 403 "Cannot delete another user's song"), st)) := by
  refine ⟨?_, ?_, ?_, ?_, ?_, ?_, ?_, ?_⟩
  · intro st env aid uid nm cov h
    simp [update_album, h]
  · intro st env aid uid nm cov adb h ho
    simp [update_album, h, ho]
  · intro st env sid uid nm gr cov h
    simp [update_song, h]
  · intro st env sid uid nm gr cov sdb h ho
    simp [update_song, h, ho]
  · intro st ce aid uid h
    simp [delete_album, h]
  · intro st ce aid uid adb h ho
    simp [delete_album, h, ho]
  · intro st ce sid uid h
    simp [delete_song, h]
  · intro st ce sid uid sdb h ho
    simp [delete_song, h, ho]

/-- C9 witness: the checks fire on concrete inputs — album 99 does not exist
(404) and album 1 is not owned by user 2 (403). -/
theorem C9_precondition_checks_first_witness :
    update_album exSt ⟨Except.ok ⟨"n", "nu"⟩, none⟩ 99 1 none none =
      (Except.error (PyErr.http 404 "Album not found"), exSt)
    ∧ delete_song exSt none 7 4 =
      (Except.error (PyErr.http 403 "Cannot delete another user's song"), exSt) :=
  ⟨C9_precondition_checks_first.1 exSt ⟨Except.ok ⟨"n", "nu"⟩, none⟩ 99 1 none none
      (by decide),
    C9_precondition_checks_first.2.2.2.2.2.2.2 exSt none 7 4 exSong (by decide)
      (by decide)⟩

/-- C10: when the first upload of `create_album` raises, the `except`
handler's `if blob_name:` reads a local that was never bound, so the caller
receives an uncaught `NameError` instead of the typed 500 response; likewise
`cover_blob_name` in `create_song` when the second (cover) upload fails —
there the handler deletes the song blob and then raises `NameError`. -/
theorem C10_unbound_blob_name_in_create_handlers :
    (∀ st env nm cov uid nid emsg,
        album_allowed_types.contains cov.content_type →
        cov.size ≤ max_file_size →
        (st.albums.filter (fun a => a.name == nm && a.singer_id == uid)).length = 0 →
        env.upload = Except.error emsg →
        create_album st env nm cov uid nid =
          (Except.error (PyErr.nameError "blob_name"), st))
  ∧ (∀ st env nm gr aid sng cov uid nid bs emsg,
        song_allowed_types.contains sng.content_type →
        album_allowed_types.contains cov.content_type →
        (st.songs.filter (fun s => s.name == nm && s.singer_id == uid)).length = 0 →
        env.uploadSong = Except.ok bs →
        env.uploadCover = Except.error emsg →
        (create_song st env nm gr aid sng cov uid nid).1 =
          Except.error (PyErr.nameError "cover_blob_name")) := by
  constructor
  · intro st env nm cov uid nid emsg hct hsz hconf hup
    have hct2 : cov.content_type ∈ album_allowed_types := by simpa using hct
    have hsz2 : ¬ (max_file_size < cov.size) := not_lt.mpr hsz
    simp [create_album, hct2, hsz2, hconf, hup]
  · intro st env nm gr aid sng cov uid nid bs emsg hst hct hconf hups hupc
    have hst2 : sng.content_type ∈ song_allowed_types := by simpa using hst
    have hct2 : cov.content_type ∈ album_allowed_types := by simpa using hct
    simp [create_song, hst2, hct2, hconf, hups, hupc]

/-- C10 witness: concrete invocations with a failing first (respectively
second) upload produce the `NameError` outcomes. -/
theorem C10_unbound_blob_name_in_create_handlers_witness :
    create_album exSt ⟨Except.error "net down", none⟩ "Fresh" ⟨"image/png", 10⟩ 1 2 =
      (Except.error (PyErr.nameError "blob_name"), exSt)
    ∧ (create_song exSt ⟨Except.ok ⟨"sk", "su"⟩, Except.error "net down", none⟩
        "Fresh" "pop" 1 ⟨"audio/mpeg", 10⟩ ⟨"image/png", 10⟩ 3 8).1 =
      Except.error (PyErr.nameError "cover_blob_name") :=
  ⟨C10_unbound_blob_name_in_create_handlers.1 exSt ⟨Except.error "net down", none⟩
      "Fresh" ⟨"image/png", 10⟩ 1 2 "net down" (by decide) (by decide) (by decide) rfl,
    C10_unbound_blob_name_in_create_handlers.2 exSt
      ⟨Except.ok ⟨"sk", "su"⟩, Except.error "net down", none⟩ "Fresh" "pop" 1
      ⟨"audio/mpeg", 10⟩ ⟨"image/png", 10⟩ 3 8 ⟨"sk", "su"⟩ "net down"
      (by decide) (by decide) (by decide) rfl rfl⟩

/-- C4 (amended): `create_album` rejects a disallowed cover type or a cover
over 1 MiB with a 400 validation error before any upload or database write
(state unchanged); `create_song` rejects only disallowed content types
before any I/O — it enforces no size ceiling at all. -/
theorem C4_amended_validation_before_io :
    (∀ st env nm cov uid nid,
        (¬ album_allowed_types.contains cov.content_type ∨ max_file_size < cov.size) →
        ∃ d, create_album st env nm cov uid nid =
          (Except.error (PyErr.http 400 d), st))
  ∧ (∀ st env nm gr aid sng cov uid nid,
        (¬ song_allowed_types.contains sng.content_type ∨
          ¬ album_allowed_types.contains cov.content_type) →
        ∃ d, create_song st env nm gr aid sng cov uid nid =
          (Except.error (PyErr.http 400 d), st)) := by
  constructor
  · intro st env nm cov uid nid h
    by_cases hct : cov.content_type ∈ album_allowed_types
    · have hsz : max_file_size < cov.size := by
        rcases h with h | h
        · exact absurd (by simpa using hct) h
        · exact h
      exact ⟨"File size exceeds the limit of 1 MB.",
        by simp [create_album, hct, hsz]⟩
    · exact ⟨"Invalid file type: " ++ cov.content_type,
        by simp [create_album, hct]⟩
  · intro st env nm gr aid sng cov uid nid h
    by_cases hst : sng.content_type ∈ song_allowed_types
    · have hct : cov.content_type ∉ album_allowed_types := by
        rcases h with h | h
        · exact absurd (by simpa using hst) h
        · intro hmem
          exact h (by simpa using hmem)
      exact ⟨"Invalid cover file type: " ++ cov.content_type,
        by simp [create_song, hst, hct]⟩
    · by_cases hct : cov.content_type ∈ album_allowed_types
      · exact ⟨"Invalid song file type: " ++ sng.content_type,
          by simp [create_song, hst, hct]⟩
      · exact ⟨"Invalid file types: song - " ++ sng.content_type ++
            ", cover - " ++ cov.content_type,
          by simp [create_song, hst, hct]⟩

/-- C4 witness: a 2 MiB PNG cover is rejected by `create_album`, and a bad
audio type is rejected by `create_song`, both without touching the state. -/
theorem C4_amended_validation_before_io_witness :
    (∃ d, create_album exSt ⟨Except.ok ⟨"k", "u"⟩, none⟩ "Fresh"
        ⟨"image/png", 2097152⟩ 1 2 = (Except.error (PyErr.http 400 d), exSt))
    ∧ ∃ d, create_song exSt ⟨Except.ok ⟨"sk", "su"⟩, Except.ok ⟨"ck", "cu"⟩, none⟩
        "Fresh" "pop" 1 ⟨"text/plain", 10⟩ ⟨"image/png", 10⟩ 3 8 =
        (Except.error (PyErr.http 400 d), exSt) :=
  ⟨C4_amended_validation_before_io.1 exSt ⟨Except.ok ⟨"k", "u"⟩, none⟩ "Fresh"
      ⟨"image/png", 2097152⟩ 1 2 (Or.inr (by decide)),
    C4_amended_validation_before_io.2 exSt
      ⟨Except.ok ⟨"sk", "su"⟩, Except.ok ⟨"ck", "cu"⟩, none⟩ "Fresh" "pop" 1
      ⟨"text/plain", 10⟩ ⟨"image/png", 10⟩ 3 8 (Or.inl (by decide))⟩

/-- Existence of a matching owner/name row is equivalent to the collision
filter being nonempty. -/
lemma album_name_filter_ex (st : St) (n : String) (uid : Nat) :
    (∃ a ∈ st.albums, a.name = n ∧ a.singer_id = uid) ↔
      (st.albums.filter (fun a => nameMatch (some n) a.name && a.singer_id == uid)) ≠ [] := by
  rw [Ne, List.filter_eq_nil_iff]
  push_neg
  constructor
  · rintro ⟨a, ha, h1, h2⟩
    exact ⟨a, ha, by simp [nameMatch, h1, h2]⟩
  · rintro ⟨a, ha, h⟩
    simp only [nameMatch, Bool.and_eq_true, beq_iff_eq] at h
    exact ⟨a, ha, h.1, h.2⟩

/-- Song version of `album_name_filter_ex`. -/
lemma song_name_filter_ex (st : St) (n : String) (uid : Nat) :
    (∃ s ∈ st.songs, s.name = n ∧ s.singer_id = uid) ↔
      (st.songs.filter (fun s => nameMatch (some n) s.name && s.singer_id == uid)) ≠ [] := by
  rw [Ne, List.filter_eq_nil_iff]
  push_neg
  constructor
  · rintro ⟨a, ha, h1, h2⟩
    exact ⟨a, ha, by simp [nameMatch, h1, h2]⟩
  · rintro ⟨a, ha, h⟩
    simp only [nameMatch, Bool.and_eq_true, beq_iff_eq] at h
    exact ⟨a, ha, h.1, h.2⟩

/-- C6 (amended): once an update request reaches the collision check (entity
found, caller is owner, cover supplied and valid) and the store satisfies
the per-owner name-uniqueness invariant, the Conflict error is returned if
and only if SOME entity of the same owner — including the entity being
updated itself — already carries the supplied name. -/
theorem C6_amended_conflict_iff_any_owner_has_name :
    (∀ st env aid uid n c adb,
        st.albums.find? (fun a => a.id == aid) = some adb →
        adb.singer_id = uid →
        album_allowed_types.contains c.content_type →
        c.size ≤ max_file_size →
        (st.albums.filter
          (fun a => nameMatch (some n) a.name && a.singer_id == uid)).length ≤ 1 →
        ((update_album st env aid uid (some n) (some c)).1 =
            Except.error (PyErr.http 400
              "Album with the same name and singer has already been created")
          ↔ ∃ a ∈ st.albums, a.name = n ∧ a.singer_id = uid))
  ∧ (∀ st env sid uid n gr c sdb,
        st.songs.find? (fun s => s.id == sid) = some sdb →
        sdb.singer_id = uid →
        album_allowed_types.contains c.content_type →
        (st.songs.filter
          (fun s => nameMatch (some n) s.name && s.singer_id == uid)).length ≤ 1 →
        ((update_song st env sid uid (some n) gr (some c)).1 =
            Except.error (PyErr.http 400
              "Song with the same name and singer has already been created")
          ↔ ∃ s ∈ st.songs, s.name = n ∧ s.singer_id = uid)) := by
  constructor
  · intro st env aid uid n c adb hfind howner hct hsz huniq
    have hct2 : c.content_type ∈ album_allowed_types := by simpa using hct
    have hsz2 : ¬ (max_file_size < c.size) := not_lt.mpr hsz
    by_cases h2 : 2 ≤ (st.albums.filter
        (fun a => nameMatch (some n) a.name && a.singer_id == uid)).length
    · omega
    · by_cases h1 : (st.albums.filter
          (fun a => nameMatch (some n) a.name && a.singer_id == uid)).length = 1
      · have hne : (st.albums.filter
            (fun a => nameMatch (some n) a.name && a.singer_id == uid)) ≠ [] := by
          intro hnil
          rw [hnil] at h1
          simp at h1
        have hres : (update_album st env aid uid (some n) (some c)).1 =
            Except.error (PyErr.http 400
              "Album with the same name and singer has already been created") := by
          simp [update_album, hfind, howner, hct2, hsz2, h2, h1]
        rw [hres, album_name_filter_ex]
        simp [hne]
      · have hl0 : (st.albums.filter
            (fun a => nameMatch (some n) a.name && a.singer_id == uid)).length = 0 := by
          omega
        have hnil := List.length_eq_zero.mp hl0
        have hnotex : ¬ ∃ a ∈ st.albums, a.name = n ∧ a.singer_id = uid := by
          rw [album_name_filter_ex]
          simp [hnil]
        have hres : (update_album st env aid uid (some n) (some c)).1 ≠
            Except.error (PyErr.http 400
              "Album with the same name and singer has already been created") := by
          rcases hup : env.upload with emsg | b
          · simp [update_album, hfind, howner, hct2, hsz2, h2, h1, hup]
          · rcases hce : env.commitErr with _ | msg
            · simp [update_album, hfind, howner, hct2, hsz2, h2, h1, hup, hce]
            · simp [update_album, hfind, howner, hct2, hsz2, h2, h1, hup, hce]
        exact ⟨fun h => absurd h hres, fun h => absurd h hnotex⟩
  · intro st env sid uid n gr c sdb hfind howner hct huniq
    have hct2 : c.content_type ∈ album_allowed_types := by simpa using hct
    by_cases h2 : 2 ≤ (st.songs.filter
        (fun s => nameMatch (some n) s.name && s.singer_id == uid)).length
    · omega
    · by_cases h1 : (st.songs.filter
          (fun s => nameMatch (some n) s.name && s.singer_id == uid)).length = 1
      · have hne : (st.songs.filter
            (fun s => nameMatch (some n) s.name && s.singer_id == uid)) ≠ [] := by
          intro hnil
          rw [hnil] at h1
          simp at h1
        have hres : (update_song st env sid uid (some n) gr (some c)).1 =
            Except.error (PyErr.http 400
              "Song with the same name and singer has already been created") := by
          simp [update_song, hfind, howner, hct2, h2, h1]
        rw [hres, song_name_filter_ex]
        simp [hne]
      · have hl0 : (st.songs.filter
            (fun s => nameMatch (some n) s.name && s.singer_id == uid)).length = 0 := by
          omega
        have hnil := List.length_eq_zero.mp hl0
        have hnotex : ¬ ∃ s ∈ st.songs, s.name = n ∧ s.singer_id = uid := by
          rw [song_name_filter_ex]
          simp [hnil]
        have hres : (update_song st env sid uid (some n) gr (some c)).1 ≠
            Except.error (PyErr.http 400
              "Song with the same name and singer has already been created") := by
          rcases hup : env.upload with emsg | b
          · simp [update_song, hfind, howner, hct2, h2, h1, hup]
          · rcases hce : env.commitErr with _ | msg
            · simp [update_song, hfind, howner, hct2, h2, h1, hup, hce]
            · simp [update_song, hfind, howner, hct2, h2, h1, hup, hce]
        exact ⟨fun h => absurd h hres, fun h => absurd h hnotex⟩

/-- C6 witness: renaming album 1 to the name of the (only) other matching
row triggers the Conflict error; renaming song 7 to a fresh name does not. -/
theorem C6_amended_conflict_iff_any_owner_has_name_witness :
    ((update_album exSt ⟨Except.ok ⟨"n", "nu"⟩, none⟩ 1 1 (some "Rock")
        (some ⟨"image/png", 100⟩)).1 =
      Except.error (PyErr.http 400
        "Album with the same name and singer has already been created")
      ↔ ∃ a ∈ exSt.albums, a.name = "Rock" ∧ a.singer_id = 1)
    ∧ ((update_song exSt ⟨Except.ok ⟨"n", "nu"⟩, none⟩ 7 3 (some "Other") none
        (some ⟨"image/png", 100⟩)).1 =
      Except.error (PyErr.http 400
        "Song with the same name and singer has already been created")
      ↔ ∃ s ∈ exSt.songs, s.name = "Other" ∧ s.singer_id = 3) :=
  ⟨C6_amended_conflict_iff_any_owner_has_name.1 exSt ⟨Except.ok ⟨"n", "nu"⟩, none⟩
      1 1 "Rock" ⟨"image/png", 100⟩ exAlbum (by decide) (by decide) (by decide)
      (by decide) (by decide),
    C6_amended_conflict_iff_any_owner_has_name.2 exSt ⟨Except.ok ⟨"n", "nu"⟩, none⟩
      7 3 "Other" none ⟨"image/png", 100⟩ exSong (by decide) (by decide)
      (by decide) (by decide)⟩

/-- C7 (amended): both delete handlers remove every referenced blob first,
then delete the row and commit; but any failure after the destructive blob
step is reported as the same generic `500 "An error occurred: ..."` used for
every upstream failure, not as a distinct partial-delete error kind.  On
success the row is gone and its blobs are gone; on a failed commit the blobs
are already gone while the row survives, and the generic error is
returned. -/
theorem C7_amended_delete_order_and_generic_error :
    (∀ st aid uid adb,
        st.albums.find? (fun a => a.id == aid) = some adb →
        adb.singer_id = uid →
        ((delete_album st none aid uid).1 = Except.ok adb
          ∧ (delete_album st none aid uid).2.albums.find? (fun a => a.id == aid) = none
          ∧ ∀ b ∈ (delete_album st none aid uid).2.blobs, b.key ≠ adb.cover)
        ∧ ∀ msg,
            (delete_album st (some msg) aid uid).1 =
              Except.error (PyErr.http 500 ("An error occurred: " ++ msg))
            ∧ (delete_album st (some msg) aid uid).2.albums = st.albums
            ∧ ∀ b ∈ (delete_album st (some msg) aid uid).2.blobs, b.key ≠ adb.cover)
  ∧ (∀ st sid uid sdb,
        st.songs.find? (fun s => s.id == sid) = some sdb →
        sdb.singer_id = uid →
        ((delete_song st none sid uid).1 = Except.ok sdb
          ∧ (delete_song st none sid uid).2.songs.find? (fun s => s.id == sid) = none
          ∧ ∀ b ∈ (delete_song st none sid uid).2.blobs,
              b.url ≠ sdb.song_url ∧ (sdb.cover_url ≠ "" → b.url ≠ sdb.cover_url))
        ∧ ∀ msg,
            (delete_song st (some msg) sid uid).1 =
              Except.error (PyErr.http 500 ("An error occurred: " ++ msg))
            ∧ (delete_song st (some msg) sid uid).2.songs = st.songs
            ∧ ∀ b ∈ (delete_song st (some msg) sid uid).2.blobs,
                b.url ≠ sdb.song_url ∧ (sdb.cover_url ≠ "" → b.url ≠ sdb.cover_url)) := by
  constructor
  · intro st aid uid adb hfind howner
    refine ⟨⟨?_, ?_, ?_⟩, ?_⟩
    · simp [delete_album, hfind, howner]
    · simp only [delete_album, hfind]
      rw [if_neg (by simp [howner])]
      simp only [List.find?_eq_none, List.mem_filter]
      rintro a ⟨_, ha⟩
      simpa using ha
    · simp only [delete_album, hfind]
      rw [if_neg (by simp [howner])]
      intro b hb
      simp only [delete_file, List.mem_filter, Bool.not_eq_eq_eq_not, Bool.not_true,
        Bool.or_eq_false_iff, beq_eq_false_iff_ne] at hb
      exact hb.2.1
    · intro msg
      refine ⟨?_, ?_, ?_⟩
      · simp [delete_album, hfind, howner]
      · simp [delete_album, hfind, howner, delete_file]
      · simp only [delete_album, hfind]
        rw [if_neg (by simp [howner])]
        intro b hb
        simp only [delete_file, List.mem_filter, Bool.not_eq_eq_eq_not, Bool.not_true,
          Bool.or_eq_false_iff, beq_eq_false_iff_ne] at hb
        exact hb.2.1
  · intro st sid uid sdb hfind howner
    have hblob : ∀ b ∈ (if sdb.cover_url ≠ "" then
        delete_file (delete_file st sdb.song_url) sdb.cover_url
        else delete_file st sdb.song_url).blobs,
        b.url ≠ sdb.song_url ∧ (sdb.cover_url ≠ "" → b.url ≠ sdb.cover_url) := by
      intro b hb
      by_cases hcu : sdb.cover_url ≠ ""
      · rw [if_pos hcu] at hb
        simp only [delete_file, List.mem_filter, Bool.not_eq_eq_eq_not, Bool.not_true,
          Bool.or_eq_false_iff, beq_eq_false_iff_ne] at hb
        exact ⟨hb.1.2.2, fun _ => hb.2.2⟩
      · rw [if_neg hcu] at hb
        simp only [delete_file, List.mem_filter, Bool.not_eq_eq_eq_not, Bool.not_true,
          Bool.or_eq_false_iff, beq_eq_false_iff_ne] at hb
        exact ⟨hb.2.2, fun h => absurd h hcu⟩
    refine ⟨⟨?_, ?_, ?_⟩, ?_⟩
    · simp [delete_song, hfind, howner]
    · simp only [delete_song, hfind]
      rw [if_neg (by simp [howner])]
      simp only [List.find?_eq_none, List.mem_filter]
      rintro a ⟨_, ha⟩
      simpa using ha
    · simp only [delete_song, hfind]
      rw [if_neg (by simp [howner])]
      simpa using hblob
    · intro msg
      refine ⟨?_, ?_, ?_⟩
      · simp [delete_song, hfind, howner]
      · by_cases hcu : sdb.cover_url ≠ "" <;>
          simp [delete_song, hfind, howner, delete_file, hcu]
      · simp only [delete_song, hfind]
        rw [if_neg (by simp [howner])]
        simpa using hblob

/-- C7 witness: concrete successful and failing deletes of album 1 and of
song 7 by their owners; for the song both the audio blob and the cover blob
are gone in either outcome. -/
theorem C7_amended_delete_order_and_generic_error_witness :
    ((delete_album exSt none 1 1).1 = Except.ok exAlbum
      ∧ (delete_album exSt none 1 1).2.albums.find? (fun a => a.id == 1) = none
      ∧ ∀ b ∈ (delete_album exSt none 1 1).2.blobs, b.key ≠ exAlbum.cover)
    ∧ ((delete_album exSt (some "boom") 1 1).1 =
        Except.error (PyErr.http 500 ("An error occurred: " ++ "boom"))
      ∧ (delete_album exSt (some "boom") 1 1).2.albums = exSt.albums
      ∧ ∀ b ∈ (delete_album exSt (some "boom") 1 1).2.blobs, b.key ≠ exAlbum.cover)
    ∧ ((delete_song exSt none 7 3).1 = Except.ok exSong
      ∧ (delete_song exSt none 7 3).2.songs.find? (fun s => s.id == 7) = none
      ∧ ∀ b ∈ (delete_song exSt none 7 3).2.blobs,
          b.url ≠ exSong.song_url ∧ (exSong.cover_url ≠ "" → b.url ≠ exSong.cover_url))
    ∧ ((delete_song exSt (some "boom") 7 3).1 =
        Except.error (PyErr.http 500 ("An error occurred: " ++ "boom"))
      ∧ (delete_song exSt (some "boom") 7 3).2.songs = exSt.songs
      ∧ ∀ b ∈ (delete_song exSt (some "boom") 7 3).2.blobs,
          b.url ≠ exSong.song_url ∧ (exSong.cover_url ≠ "" → b.url ≠ exSong.cover_url)) :=
  ⟨(C7_amended_delete_order_and_generic_error.1 exSt 1 1 exAlbum (by decide)
      (by decide)).1,
    (C7_amended_delete_order_and_generic_error.1 exSt 1 1 exAlbum (by decide)
      (by decide)).2 "boom",
    (C7_amended_delete_order_and_generic_error.2 exSt 7 3 exSong (by decide)
      (by decide)).1,
    (C7_amended_delete_order_and_generic_error.2 exSt 7 3 exSong (by decide)
      (by decide)).2 "boom"⟩

/-- Membership in the blob store after a `delete_file`. -/
lemma mem_delete_file {st : St} {s : String} {x : Blob} :
    x ∈ (delete_file st s).blobs ↔ x ∈ st.blobs ∧ x.key ≠ s ∧ x.url ≠ s := by
  simp [delete_file, List.mem_filter, not_or, and_assoc]

/-- Compensating the blob just uploaded leaves no blob beyond the initial
store. -/
lemma delete_own_key_subset (st : St) (b : Blob) :
    (delete_file (upload_file_store st b) b.key).blobs ⊆ st.blobs := by
  intro x hx
  rw [mem_delete_file] at hx
  rcases hx with ⟨hx, hk, _⟩
  simp only [upload_file_store, List.mem_cons] at hx
  rcases hx with rfl | hx
  · exact absurd rfl hk
  · exact hx

/-- Compensating both uploaded blobs leaves no blob beyond the initial
store. -/
lemma delete_two_keys_subset (st : St) (bs bc : Blob) :
    (delete_file (delete_file (upload_file_store (upload_file_store st bs) bc)
        bs.key) bc.key).blobs ⊆ st.blobs := by
  intro x hx
  rw [mem_delete_file] at hx
  rcases hx with ⟨hx, hkc, _⟩
  rw [mem_delete_file] at hx
  rcases hx with ⟨hx, hks, _⟩
  simp only [upload_file_store, List.mem_cons] at hx
  rcases hx with rfl | rfl | hx
  · exact absurd rfl hkc
  · exact absurd rfl hks
  · exact hx

/-- C1: whenever `create_album` or `create_song` returns an error — under
the blob-store contract that upload keys are nonempty — the entity row was
not persisted (the table is exactly as before) and no blob uploaded during
the invocation survives: the final store is contained in the initial one. -/
theorem C1_create_error_no_row_no_new_blob :
    (∀ st env nm cov uid nid e,
        (∀ b, env.upload = Except.ok b → b.key ≠ "") →
        (create_album st env nm cov uid nid).1 = Except.error e →
        (create_album st env nm cov uid nid).2.albums = st.albums
          ∧ (create_album st env nm cov uid nid).2.blobs ⊆ st.blobs)
  ∧ (∀ st env nm gr aid sng cov uid nid e,
        (∀ b, env.uploadSong = Except.ok b → b.key ≠ "") →
        (∀ b, env.uploadCover = Except.ok b → b.key ≠ "") →
        (create_song st env nm gr aid sng cov uid nid).1 = Except.error e →
        (create_song st env nm gr aid sng cov uid nid).2.songs = st.songs
          ∧ (create_song st env nm gr aid sng cov uid nid).2.blobs ⊆ st.blobs) := by
  constructor
  · intro st env nm cov uid nid e hkey herr
    by_cases hct : cov.content_type ∈ album_allowed_types
    · by_cases hsz : max_file_size < cov.size
      · constructor <;> simp [create_album, hct, hsz]
      · by_cases h2 : 2 ≤ (st.albums.filter
            (fun a => a.name == nm && a.singer_id == uid)).length
        · constructor <;> simp [create_album, hct, hsz, h2]
        · by_cases h1 : (st.albums.filter
              (fun a => a.name == nm && a.singer_id == uid)).length = 1
          · constructor <;> simp [create_album, hct, hsz, h2, h1]
          · rcases hup : env.upload with emsg | b
            · constructor <;> simp [create_album, hct, hsz, h2, h1, hup]
            · rcases hce : env.commitErr with _ | msg
              · exfalso
                simp [create_album, hct, hsz, h2, h1, hup, hce] at herr
              · have hk := hkey b hup
                constructor
                · simp [create_album, hct, hsz, h2, h1, hup, hce, hk,
                    delete_file, upload_file_store]
                · have hsub := delete_own_key_subset st b
                  simpa [create_album, hct, hsz, h2, h1, hup, hce, hk] using hsub
    · constructor <;> simp [create_album, hct]
  · intro st env nm gr aid sng cov uid nid e hkeys hkeyc herr
    by_cases hst : sng.content_type ∈ song_allowed_types
    · by_cases hct : cov.content_type ∈ album_allowed_types
      · by_cases h2 : 2 ≤ (st.songs.filter
            (fun s => s.name == nm && s.singer_id == uid)).length
        · constructor <;> simp [create_song, hst, hct, h2]
        · by_cases h1 : (st.songs.filter
              (fun s => s.name == nm && s.singer_id == uid)).length = 1
          · constructor <;> simp [create_song, hst, hct, h2, h1]
          · rcases hups : env.uploadSong with emsg | bs
            · constructor <;> simp [create_song, hst, hct, h2, h1, hups]
            · have hks := hkeys bs hups
              rcases hupc : env.uploadCover with emsg | bc
              · constructor
                · simp [create_song, hst, hct, h2, h1, hups, hupc, hks,
                    delete_file, upload_file_store]
                · have hsub := delete_own_key_subset st bs
                  simpa [create_song, hst, hct, h2, h1, hups, hupc, hks] using hsub
              · have hkc := hkeyc bc hupc
                rcases hce : env.commitErr with _ | msg
                · exfalso
                  simp [create_song, hst, hct, h2, h1, hups, hupc, hce] at herr
                · constructor
                  · simp [create_song, hst, hct, h2, h1, hups, hupc, hce, hks, hkc,
                      delete_file, upload_file_store]
                  · have hsub := delete_two_keys_subset st bs bc
                    simpa [create_song, hst, hct, h2, h1, hups, hupc, hce, hks, hkc]
                      using hsub
      · constructor <;> simp [create_song, hst, hct]
    · by_cases hct : cov.content_type ∈ album_allowed_types
      · constructor <;> simp [create_song, hst, hct]
      · constructor <;> simp [create_song, hst, hct]

/-- C1 witness: a concrete failed commit in `create_album` and a concrete
failed cover upload in `create_song`, both compensated: tables and store end
as they started. -/
theorem C1_create_error_no_row_no_new_blob_witness :
    ((create_album exSt ⟨Except.ok ⟨"k", "u"⟩, some "boom"⟩ "Fresh"
        ⟨"image/png", 10⟩ 1 2).2.albums = exSt.albums
      ∧ (create_album exSt ⟨Except.ok ⟨"k", "u"⟩, some "boom"⟩ "Fresh"
        ⟨"image/png", 10⟩ 1 2).2.blobs ⊆ exSt.blobs)
    ∧ ((create_song exSt ⟨Except.ok ⟨"sk", "su"⟩, Except.error "net down", none⟩
        "Fresh" "pop" 1 ⟨"audio/mpeg", 10⟩ ⟨"image/png", 10⟩ 3 8).2.songs = exSt.songs
      ∧ (create_song exSt ⟨Except.ok ⟨"sk", "su"⟩, Except.error "net down", none⟩
        "Fresh" "pop" 1 ⟨"audio/mpeg", 10⟩ ⟨"image/png", 10⟩ 3 8).2.blobs ⊆ exSt.blobs) :=
  ⟨C1_create_error_no_row_no_new_blob.1 exSt ⟨Except.ok ⟨"k", "u"⟩, some "boom"⟩
      "Fresh" ⟨"image/png", 10⟩ 1 2 (PyErr.http 500 "An error occurred: boom")
      (fun b hb => by cases hb; decide) (by decide),
    C1_create_error_no_row_no_new_blob.2 exSt
      ⟨Except.ok ⟨"sk", "su"⟩, Except.error "net down", none⟩ "Fresh" "pop" 1
      ⟨"audio/mpeg", 10⟩ ⟨"image/png", 10⟩ 3 8 (PyErr.nameError "cover_blob_name")
      (fun b hb => by cases hb; decide) (fun b hb => by cases hb) (by decide)⟩

/-- The denormalized-counter invariant: every song's `like_count` equals the
number of `Song_Likes` rows referencing it. -/
def countInv (st : St) : Prop :=
  ∀ s ∈ st.songs, s.like_count =
    ((st.likes.filter (fun e => e.song_id == s.id)).length : Int)

/-- Splitting a filtered length along a second predicate. -/
lemma length_filter_split (l : List LikeRow) (p q : LikeRow → Bool) :
    (l.filter p).length =
      (l.filter (fun e => p e && q e)).length +
        (l.filter (fun e => p e && !q e)).length := by
  induction l with
  | nil => rfl
  | cons a t ih =>
    cases hp : p a with
    | false => simp [List.filter_cons, hp, ih]
    | true =>
      cases hq : q a with
      | false =>
        simp only [List.filter_cons, hp, hq, Bool.and_false, Bool.and_true,
          Bool.not_false, if_true, if_false]
        simp [ih]
        omega
      | true =>
        simp only [List.filter_cons, hp, hq, Bool.and_true, Bool.not_true,
          Bool.and_false, if_true, if_false]
        simp [ih]
        omega

/-- Filtering with a predicate after keeping its complement yields nothing. -/
lemma filter_not_self (l : List LikeRow) (p : LikeRow → Bool) :
    (l.filter (fun e => !(p e))).filter p = [] := by
  rw [List.filter_filter]
  refine List.filter_eq_nil_iff.mpr ?_
  intro a _
  cases hp : p a <;> simp [hp]

/-- A decremented-`like_count` update commutes with looking the song up. -/
lemma find_map_dec (l : List SongRow) (i : Nat) :
    (l.map (fun s => if s.id == i
        then { s with like_count := s.like_count - 1 } else s)).find?
        (fun s => s.id == i) =
      (l.find? (fun s => s.id == i)).map
        (fun s => { s with like_count := s.like_count - 1 }) := by
  induction l with
  | nil => rfl
  | cons a t ih =>
    by_cases ha : a.id = i
    · simp [List.find?_cons, ha]
    · have hcomp : ((fun s : SongRow => s.id == i) ∘ fun s =>
          if s.id = i then { s with like_count := s.like_count - 1 } else s) =
          (fun s : SongRow => s.id == i) := by
        funext s
        by_cases hs : s.id = i <;> simp [Function.comp, hs]
      simp [List.find?_cons, ha, hcomp]
      cases hft : List.find? (fun s : SongRow => s.id == i) t with
      | none => simp
      | some s1 =>
        have hps := List.find?_some hft
        simp only [beq_iff_eq] at hps
        simp [hps]

/-- An incremented-`like_count` update commutes with looking the song up. -/
lemma find_map_inc (l : List SongRow) (i : Nat) :
    (l.map (fun s => if s.id == i
        then { s with like_count := s.like_count + 1 } else s)).find?
        (fun s => s.id == i) =
      (l.find? (fun s => s.id == i)).map
        (fun s => { s with like_count := s.like_count + 1 }) := by
  induction l with
  | nil => rfl
  | cons a t ih =>
    by_cases ha : a.id = i
    · simp [List.find?_cons, ha]
    · have hcomp : ((fun s : SongRow => s.id == i) ∘ fun s =>
          if s.id = i then { s with like_count := s.like_count + 1 } else s) =
          (fun s : SongRow => s.id == i) := by
        funext s
        by_cases hs : s.id = i <;> simp [Function.comp, hs]
      simp [List.find?_cons, ha, hcomp]
      cases hft : List.find? (fun s : SongRow => s.id == i) t with
      | none => simp
      | some s1 =>
        have hps := List.find?_some hft
        simp only [beq_iff_eq] at hps
        simp [hps]

/-- When exactly one like row matches the pair, the filtered list is the
singleton of that pair. -/
lemma filter_isLike_singleton (l : List LikeRow) (u i : Nat)
    (h : (l.filter (isLikeOf u i)).length = 1) :
    l.filter (isLikeOf u i) = [⟨u, i⟩] := by
  obtain ⟨a, ha⟩ := List.length_eq_one.mp h
  have hmem : a ∈ l.filter (isLikeOf u i) := by
    rw [ha]
    exact List.mem_singleton_self a
  have hp := (List.mem_filter.mp hmem).2
  cases a with
  | mk au ai =>
    simp only [isLikeOf, Bool.and_eq_true, beq_iff_eq] at hp
    rw [ha, hp.1, hp.2]

/-- One toggle invocation preserves the counter/edge invariant. -/
lemma toggle_preserves_countInv (st : St) (u i : Nat) (h : countInv st) :
    countInv (like_or_unlike_song st u i).2 := by
  rcases hf : st.songs.find? (fun s => s.id == i) with _ | s0
  · simpa [like_or_unlike_song, hf] using h
  · by_cases h2 : 2 ≤ (st.likes.filter (isLikeOf u i)).length
    · simpa [like_or_unlike_song, hf, h2] using h
    · by_cases h1 : (st.likes.filter (isLikeOf u i)).length = 1
      · have hres : (like_or_unlike_song st u i).2 =
            { st with
              likes := st.likes.filter (fun e => !(isLikeOf u i e)),
              songs := st.songs.map (fun s => if s.id == i
                then { s with like_count := s.like_count - 1 } else s) } := by
          simp [like_or_unlike_song, hf, h2, h1]
        rw [hres]
        intro s hs
        simp only [List.mem_map] at hs
        obtain ⟨t, ht, rfl⟩ := hs
        by_cases hti : t.id = i
        · subst hti
          simp only [beq_self_eq_true, if_true]
          have hsplit := length_filter_split st.likes
            (fun e => e.song_id == t.id) (isLikeOf u t.id)
          have hA : st.likes.filter
              (fun e => (e.song_id == t.id) && isLikeOf u t.id e) =
              st.likes.filter (isLikeOf u t.id) := by
            refine List.filter_congr ?_
            intro e _
            cases he : isLikeOf u t.id e
            · simp
            · have he2 := he
              simp only [isLikeOf, Bool.and_eq_true, beq_iff_eq] at he2
              simp [he, he2.2]
          rw [List.filter_filter]
          have hcnt := h t ht
          have hgoal : (st.likes.filter
              (fun e => (e.song_id == t.id) && !(isLikeOf u t.id e))).length =
              (st.likes.filter (fun e => e.song_id == t.id)).length - 1 := by
            rw [hA] at hsplit
            omega
          simp only [hgoal]
          have hge : 1 ≤ (st.likes.filter (fun e => e.song_id == t.id)).length := by
            rw [hA] at hsplit
            omega
          omega
        · have hbi : (t.id == i) = false := by simp [hti]
          simp only [hbi, Bool.false_eq_true, if_false]
          rw [List.filter_filter]
          have hC : st.likes.filter (fun e => (e.song_id == t.id) && !(isLikeOf u i e)) =
              st.likes.filter (fun e => e.song_id == t.id) := by
            refine List.filter_congr ?_
            intro e _
            cases hse : (e.song_id == t.id)
            · simp
            · have hei : e.song_id = t.id := by simpa using hse
              have hni : (e.song_id == i) = false := by simp [hei, hti]
              simp [isLikeOf, hni]
          rw [hC]
          exact h t ht
      · have hres : (like_or_unlike_song st u i).2 =
            { st with
              likes := ⟨u, i⟩ :: st.likes,
              songs := st.songs.map (fun s => if s.id == i
                then { s with like_count := s.like_count + 1 } else s) } := by
          simp [like_or_unlike_song, hf, h2, h1]
        rw [hres]
        intro s hs
        simp only [List.mem_map] at hs
        obtain ⟨t, ht, rfl⟩ := hs
        by_cases hti : t.id = i
        · subst hti
          simp only [beq_self_eq_true, if_true]
          rw [List.filter_cons]
          have hhead : (((⟨u, t.id⟩ : LikeRow).song_id == t.id)) = true := by simp
          simp only [hhead, if_true, List.length_cons]
          have hcnt := h t ht
          omega
        · have hbi : (t.id == i) = false := by simp [hti]
          simp only [hbi, Bool.false_eq_true, if_false]
          rw [List.filter_cons]
          have hhead : (((⟨u, i⟩ : LikeRow).song_id == t.id)) = false := by
            simp [Ne.symm hti]
          simp only [hhead, Bool.false_eq_true, if_false]
          exact h t ht

/-- Every sequence of toggle invocations preserves the invariant. -/
lemma applyToggles_preserves_countInv (ops : List (Nat × Nat)) (st : St)
    (h : countInv st) : countInv (applyToggles st ops) := by
  induction ops generalizing st with
  | nil => exact h
  | cons op rest ih =>
    exact ih ((like_or_unlike_song st op.1 op.2).2)
      (toggle_preserves_countInv st op.1 op.2 h)

/-- C3: for every song, after any sequence of committed toggle invocations
the song's `like_count` equals the number of `Song_Likes` rows for it,
provided the two were equal at the start; and a single toggle on an existing
song deletes the edge and decrements the counter by exactly 1 when the edge
exists, and inserts the edge and increments it by exactly 1 when it does
not. -/
theorem C3_toggle_counter_consistency :
    (∀ st ops, countInv st → countInv (applyToggles st ops))
  ∧ (∀ st u i s0, st.songs.find? (fun s => s.id == i) = some s0 →
      (((st.likes.filter (isLikeOf u i)).length = 1 →
        ((like_or_unlike_song st u i).2.likes.filter (isLikeOf u i)).length = 0
          ∧ (like_or_unlike_song st u i).2.songs.find? (fun s => s.id == i) =
              some { s0 with like_count := s0.like_count - 1 })
      ∧ ((st.likes.filter (isLikeOf u i)).length = 0 →
        ((like_or_unlike_song st u i).2.likes.filter (isLikeOf u i)).length = 1
          ∧ (like_or_unlike_song st u i).2.songs.find? (fun s => s.id == i) =
              some { s0 with like_count := s0.like_count + 1 }))) := by
  constructor
  · intro st ops h
    exact applyToggles_preserves_countInv ops st h
  · intro st u i s0 hf
    constructor
    · intro h1
      have h2 : ¬ 2 ≤ (st.likes.filter (isLikeOf u i)).length := by omega
      have hres : (like_or_unlike_song st u i).2 =
          { st with
            likes := st.likes.filter (fun e => !(isLikeOf u i e)),
            songs := st.songs.map (fun s => if s.id == i
              then { s with like_count := s.like_count - 1 } else s) } := by
        simp [like_or_unlike_song, hf, h2, h1]
      rw [hres]
      constructor
      · have hnil := filter_not_self st.likes (isLikeOf u i)
        simp only [hnil, List.length_nil]
      · rw [find_map_dec, hf]
        rfl
    · intro h0
      have h2 : ¬ 2 ≤ (st.likes.filter (isLikeOf u i)).length := by omega
      have h1 : ¬ ((st.likes.filter (isLikeOf u i)).length = 1) := by omega
      have hres : (like_or_unlike_song st u i).2 =
          { st with
            likes := ⟨u, i⟩ :: st.likes,
            songs := st.songs.map (fun s => if s.id == i
              then { s with like_count := s.like_count + 1 } else s) } := by
        simp [like_or_unlike_song, hf, h2, h1]
      rw [hres]
      constructor
      · rw [List.filter_cons]
        have hhead : isLikeOf u i ⟨u, i⟩ = true := by simp [isLikeOf]
        simp only [hhead, if_true, List.length_cons, h0]
      · rw [find_map_inc, hf]
        rfl

/-- C3 witness: a concrete double toggle preserves the invariant, and a
concrete first toggle inserts the edge and increments the counter by one. -/
theorem C3_toggle_counter_consistency_witness :
    countInv (applyToggles exSt [(3, 7), (3, 7)])
    ∧ ((like_or_unlike_song exSt 3 7).2.likes.filter (isLikeOf 3 7)).length = 1
    ∧ (like_or_unlike_song exSt 3 7).2.songs.find? (fun s => s.id == 7) =
        some { exSong with like_count := exSong.like_count + 1 } :=
  ⟨C3_toggle_counter_consistency.1 exSt [(3, 7), (3, 7)]
      (by intro s hs; have h := List.mem_singleton.mp hs; subst h; decide),
    (C3_toggle_counter_consistency.2 exSt 3 7 exSong (by decide)).2 (by decide)⟩

/-- When no row matches a predicate, keeping its complement keeps
everything. -/
lemma filter_not_of_none (l : List LikeRow) (p : LikeRow → Bool)
    (h : l.filter p = []) : l.filter (fun e => !(p e)) = l := by
  refine List.filter_eq_self.mpr ?_
  intro a ha
  have hna := List.filter_eq_nil_iff.mp h a ha
  cases hp : p a with
  | false => simp
  | true => exact absurd hp hna

/-- C8: for any user, song and starting state in which the song exists,
two consecutive toggle invocations restore the original state: the like
rows for the `(user, song)` pair and the song's `like_count` equal their
values from before both calls, and if the pair started unliked it ends
unliked. -/
theorem C8_double_toggle_restores_state (st : St) (u i : Nat) (s0 : SongRow)
    (hfind : st.songs.find? (fun s => s.id == i) = some s0) :
    ((like_or_unlike_song (like_or_unlike_song st u i).2 u i).2.likes.filter
        (isLikeOf u i) = st.likes.filter (isLikeOf u i))
    ∧ (∃ s2, (like_or_unlike_song (like_or_unlike_song st u i).2 u i).2.songs.find?
          (fun s => s.id == i) = some s2 ∧ s2.like_count = s0.like_count)
    ∧ (st.likes.filter (isLikeOf u i) = [] →
        (like_or_unlike_song (like_or_unlike_song st u i).2 u i).2.likes.filter
          (isLikeOf u i) = []) := by
  by_cases h2 : 2 ≤ (st.likes.filter (isLikeOf u i)).length
  · have hres : (like_or_unlike_song st u i).2 = st := by
      simp [like_or_unlike_song, hfind, h2]
    rw [hres, hres]
    exact ⟨rfl, ⟨s0, hfind, rfl⟩, fun h => h⟩
  · by_cases h1 : (st.likes.filter (isLikeOf u i)).length = 1
    · have hsingle := filter_isLike_singleton st.likes u i h1
      have hres1 : (like_or_unlike_song st u i).2 =
          { st with
            likes := st.likes.filter (fun e => !(isLikeOf u i e)),
            songs := st.songs.map (fun s => if s.id == i
              then { s with like_count := s.like_count - 1 } else s) } := by
        simp [like_or_unlike_song, hfind, h2, h1]
      set st1 := (like_or_unlike_song st u i).2 with hst1
      have hsongs1 : st1.songs = st.songs.map (fun s => if s.id == i
          then { s with like_count := s.like_count - 1 } else s) := by
        rw [hres1]
      have hlikes1v : st1.likes = st.likes.filter (fun e => !(isLikeOf u i e)) := by
        rw [hres1]
      have hfind1 : st1.songs.find? (fun s => s.id == i) =
          some { s0 with like_count := s0.like_count - 1 } := by
        rw [hsongs1, find_map_dec, hfind]
        rfl
      have hlikes1 : st1.likes.filter (isLikeOf u i) = [] := by
        rw [hlikes1v]
        exact filter_not_self st.likes (isLikeOf u i)
      have hlen1 : (st1.likes.filter (isLikeOf u i)).length = 0 := by
        rw [hlikes1]
        rfl
      have hres2 : (like_or_unlike_song st1 u i).2 =
          { st1 with
            likes := ⟨u, i⟩ :: st1.likes,
            songs := st1.songs.map (fun s => if s.id == i
              then { s with like_count := s.like_count + 1 } else s) } := by
        simp [like_or_unlike_song, hfind1, hlen1]
      have hlikes2 : (like_or_unlike_song st1 u i).2.likes = ⟨u, i⟩ :: st1.likes := by
        rw [hres2]
      have hsongs2 : (like_or_unlike_song st1 u i).2.songs =
          st1.songs.map (fun s => if s.id == i
            then { s with like_count := s.like_count + 1 } else s) := by
        rw [hres2]
      refine ⟨?_, ?_, ?_⟩
      · rw [hlikes2, List.filter_cons]
        have hhead : isLikeOf u i ⟨u, i⟩ = true := by simp [isLikeOf]
        simp only [hhead, if_true]
        rw [hlikes1, hsingle]
      · refine ⟨_, by rw [hsongs2, find_map_inc, hfind1]; rfl, ?_⟩
        show s0.like_count - 1 + 1 = s0.like_count
        omega
      · intro hnil
        rw [hnil] at hsingle
        exact absurd hsingle (by simp)
    · have hl0 : (st.likes.filter (isLikeOf u i)).length = 0 := by omega
      have hnil0 : st.likes.filter (isLikeOf u i) = [] :=
        List.length_eq_zero.mp hl0
      have hres1 : (like_or_unlike_song st u i).2 =
          { st with
            likes := ⟨u, i⟩ :: st.likes,
            songs := st.songs.map (fun s => if s.id == i
              then { s with like_count := s.like_count + 1 } else s) } := by
        simp [like_or_unlike_song, hfind, h2, h1]
      set st1 := (like_or_unlike_song st u i).2 with hst1
      have hsongs1 : st1.songs = st.songs.map (fun s => if s.id == i
          then { s with like_count := s.like_count + 1 } else s) := by
        rw [hres1]
      have hlikes1v : st1.likes = ⟨u, i⟩ :: st.likes := by
        rw [hres1]
      have hfind1 : st1.songs.find? (fun s => s.id == i) =
          some { s0 with like_count := s0.like_count + 1 } := by
        rw [hsongs1, find_map_inc, hfind]
        rfl
      have hlikes1 : st1.likes.filter (isLikeOf u i) = [⟨u, i⟩] := by
        rw [hlikes1v, List.filter_cons]
        have hhead : isLikeOf u i ⟨u, i⟩ = true := by simp [isLikeOf]
        simp only [hhead, if_true]
        rw [hnil0]
      have hlen1 : (st1.likes.filter (isLikeOf u i)).length = 1 := by
        rw [hlikes1]
        rfl
      have hres2 : (like_or_unlike_song st1 u i).2 =
          { st1 with
            likes := st1.likes.filter (fun e => !(isLikeOf u i e)),
            songs := st1.songs.map (fun s => if s.id == i
              then { s with like_count := s.like_count - 1 } else s) } := by
        simp [like_or_unlike_song, hfind1, hlen1]
      have hlikes2 : (like_or_unlike_song st1 u i).2.likes = st.likes := by
        rw [hres2]
        show st1.likes.filter (fun e => !(isLikeOf u i e)) = st.likes
        rw [hlikes1v, List.filter_cons]
        have hhead : (!(isLikeOf u i ⟨u, i⟩)) = false := by simp [isLikeOf]
        simp only [hhead, Bool.false_eq_true, if_false]
        exact filter_not_of_none st.likes (isLikeOf u i) hnil0
      have hsongs2 : (like_or_unlike_song st1 u i).2.songs =
          st1.songs.map (fun s => if s.id == i
            then { s with like_count := s.like_count - 1 } else s) := by
        rw [hres2]
      refine ⟨?_, ?_, ?_⟩
      · rw [hlikes2]
      · refine ⟨_, by rw [hsongs2, find_map_dec, hfind1]; rfl, ?_⟩
        show s0.like_count + 1 - 1 = s0.like_count
        omega
      · intro _
        rw [hlikes2]
        exact hnil0

/-- C8 witness: user 3 toggling song 7 twice from the sample (unliked)
state. -/
theorem C8_double_toggle_restores_state_witness :
    ((like_or_unlike_song (like_or_unlike_song exSt 3 7).2 3 7).2.likes.filter
        (isLikeOf 3 7) = exSt.likes.filter (isLikeOf 3 7))
    ∧ (∃ s2, (like_or_unlike_song (like_or_unlike_song exSt 3 7).2 3 7).2.songs.find?
          (fun s => s.id == 7) = some s2 ∧ s2.like_count = exSong.like_count)
    ∧ (exSt.likes.filter (isLikeOf 3 7) = [] →
        (like_or_unlike_song (like_or_unlike_song exSt 3 7).2 3 7).2.likes.filter
          (isLikeOf 3 7) = []) :=
  C8_double_toggle_restores_state exSt 3 7 exSong (by decide)
